import Mathlib

/-!
Verification of the VoLTE SIP fuzzer core (files src/fuzzer/adb_monitor.py,
src/fuzzer/sipp_runner.py, src/fuzzer/orchestrator.py) against its
natural-language specification.

The Python code is shallowly embedded: pure logic becomes Lean functions,
external effects (child-process behaviour, OS signal delivery, observer
callbacks) become explicit behaviour parameters, and Python exceptions
become the error side of `Except`.
-/

/- ============================================================
   Pattern Matcher (ADBMonitor, src/fuzzer/adb_monitor.py)
   ============================================================ -/

/-- Check that the pattern list is a prefix of the first list (character by
character, as Python regex literal matching does at one position). -/
def startsWith : List Char → List Char → Bool
  | _, [] => true
  | [], _ :: _ => false
  | c :: s, p :: ps => c == p && startsWith s ps

/-- True when the predicate holds at some suffix of the list; this is the
scanning behaviour of `re.search`, which tries every start position. -/
def anySuffix (p : List Char → Bool) : List Char → Bool
  | [] => p []
  | c :: s => p (c :: s) || anySuffix p s

/-- Substring test: the pattern occurs somewhere in the text.  A regex of the
form `.*LIT.*` used with `re.search` matches a line exactly when the line
contains the literal `LIT`. -/
def hasSub (s pat : List Char) : Bool :=
  anySuffix (fun t => startsWith t pat) s

/-- True when the predicate holds at some suffix reachable without crossing a
newline; the inner `.*` of a regex such as `.*A.*B.*` cannot cross a line
break, so the second literal must be found before any newline. -/
def scanNoNl (p : List Char → Bool) : List Char → Bool
  | [] => p []
  | c :: s => p (c :: s) || (c != '\n' && scanNoNl p s)

/-- Search semantics of `.*A.*<p>.*`: an occurrence of the literal `a`
followed, with no intervening newline, by a position where `p` matches. -/
def seqSubP (a : List Char) (p : List Char → Bool) (s : List Char) : Bool :=
  anySuffix (fun t => startsWith t a && scanNoNl p (t.drop a.length)) s

/-- Matcher for the character class occurrence `40[0-9]`. -/
def is40x : List Char → Bool
  | '4' :: '0' :: c :: _ => c.isDigit
  | _ => false

/-- Matcher for the character class occurrence `50[0-9]`. -/
def is50x : List Char → Bool
  | '5' :: '0' :: c :: _ => c.isDigit
  | _ => false

/-- Lower-casing of a line, modelling `re.IGNORECASE` on the ASCII patterns
used by the signature table. -/
def lowerStr (s : String) : List Char :=
  s.data.map Char.toLower

/-- A crash signature of the table built by `ADBMonitor._load_crash_patterns`:
a name, a compiled pattern (embedded as a Boolean matcher on the line), and a
severity string. -/
structure CrashSig where
  name : String
  pattern : String → Bool
  severity : String

/-- Signature `Native Crash`, regex
`.*FATAL EXCEPTION.*|.*Fatal signal.*|.*SIGSEGV.*`, case-sensitive. -/
def native_crash_sig : CrashSig :=
  { name := "Native Crash"
    pattern := fun s =>
      hasSub s.data "FATAL EXCEPTION".data || hasSub s.data "Fatal signal".data ||
        hasSub s.data "SIGSEGV".data
    severity := "critical" }

/-- Signature `ANR`, regex `.*ANR in.*|.*Application Not Responding.*`,
case-sensitive. -/
def anr_sig : CrashSig :=
  { name := "ANR"
    pattern := fun s =>
      hasSub s.data "ANR in".data || hasSub s.data "Application Not Responding".data
    severity := "high" }

/-- Signature `IMS Error`, regex `.*ImsService.*error.*|.*VoLTE.*fail.*` with
`re.IGNORECASE`. -/
def ims_error_sig : CrashSig :=
  { name := "IMS Error"
    pattern := fun s =>
      seqSubP "imsservice".data (fun t => startsWith t "error".data) (lowerStr s) ||
        seqSubP "volte".data (fun t => startsWith t "fail".data) (lowerStr s)
    severity := "medium" }

/-- Signature `SIP Error`, regex `.*SIP.*40[0-9].*|.*SIP.*50[0-9].*`,
case-sensitive. -/
def sip_error_sig : CrashSig :=
  { name := "SIP Error"
    pattern := fun s =>
      seqSubP "SIP".data is40x s.data || seqSubP "SIP".data is50x s.data
    severity := "medium" }

/-- Signature `Segfault`, regex `.*segmentation fault.*|.*SIGSEGV.*` with
`re.IGNORECASE`. -/
def segfault_sig : CrashSig :=
  { name := "Segfault"
    pattern := fun s =>
      hasSub (lowerStr s) "segmentation fault".data || hasSub (lowerStr s) "sigsegv".data
    severity := "critical" }

/-- Signature `Buffer Overflow`, regex `.*buffer overflow.*|.*stack smashing.*`
with `re.IGNORECASE`. -/
def buffer_overflow_sig : CrashSig :=
  { name := "Buffer Overflow"
    pattern := fun s =>
      hasSub (lowerStr s) "buffer overflow".data || hasSub (lowerStr s) "stack smashing".data
    severity := "critical" }

/-- The ordered signature table returned by `ADBMonitor._load_crash_patterns`. -/
def crash_patterns : List CrashSig :=
  [native_crash_sig, anr_sig, ims_error_sig, sip_error_sig, segfault_sig, buffer_overflow_sig]

/-- A queued log entry: capture timestamp plus the stripped line
(`_read_logs` pushes `{timestamp: datetime.now(), line: line.strip()}`). -/
structure LogEntry where
  timestamp : Nat
  line : String
  deriving DecidableEq

/-- The `match_result` dictionary built by `ADBMonitor._match_patterns` on a
positive match; the orchestrator accumulates these as crash events. -/
structure CrashEvent where
  timestamp : Nat
  pattern_name : String
  severity : String
  log_line : String
  deriving DecidableEq

/-- Build the `match_result` for one matching signature on one queued line. -/
def mkEvent (ts : Nat) (p : CrashSig) (line : String) : CrashEvent :=
  { timestamp := ts, pattern_name := p.name, severity := p.severity, log_line := line }

/-- A registered observer callback; `Except.error` models the callback raising
an exception. -/
def Observer : Type :=
  CrashEvent → Except String Unit

/-- Invoke every callback in order on one event, as the inner
`for callback in self.callbacks` loop does.  Returns the invocations actually
performed (observer index paired with the event) and, if some callback raised,
the exception, which aborts the remaining callbacks. -/
def invokeAll : List Observer → Nat → CrashEvent → List (Nat × CrashEvent) × Option String
  | [], _, _ => ([], none)
  | cb :: rest, idx, ev =>
    match cb ev with
    | Except.ok _ =>
      match invokeAll rest (idx + 1) ev with
      | (t, e) => ((idx, ev) :: t, e)
    | Except.error m => ([(idx, ev)], some m)

/-- Process one queued line against the signature table, as one iteration of
the `while` loop of `ADBMonitor._match_patterns` does: every signature is
tried in table order, each match builds an event and fans it out to all
callbacks.  An exception escaping a callback aborts the signature loop for
this line (it is caught one level up, at the `while` body). -/
def matchEntry (cbs : List Observer) : List CrashSig → Nat → String → List (Nat × CrashEvent) × Option String
  | [], _, _ => ([], none)
  | p :: rest, ts, line =>
    if p.pattern line then
      match invokeAll cbs 0 (mkEvent ts p line) with
      | (t, some m) => (t, some m)
      | (t, none) =>
        match matchEntry cbs rest ts line with
        | (t2, e2) => (t ++ t2, e2)
    else matchEntry cbs rest ts line

/-- The consumer loop of `ADBMonitor._match_patterns` over a finite stream of
queued entries: each entry is processed inside a `try` whose
`except Exception` handler logs and continues, so an exception on one entry
never stops the loop from reaching the next entry. -/
def match_patterns (cbs : List Observer) : List LogEntry → List (Nat × CrashEvent)
  | [] => []
  | en :: rest =>
    (matchEntry cbs crash_patterns en.timestamp en.line).1 ++ match_patterns cbs rest

/- ============================================================
   Process Runner (SIPpRunner.run_scenario, src/fuzzer/sipp_runner.py)
   ============================================================ -/

/-- The result dictionary returned by `SIPpRunner.run_scenario`. -/
structure Outcome where
  success : Bool
  stdout : String
  stderr : String
  exit_code : Int
  duration : Nat
  timeout : Bool
  deriving DecidableEq

/-- Observable process-group control actions taken on the timeout path. -/
inductive RunnerAction where
  | sigtermGroup
  | sleepOneSec
  | sigkillGroup
  deriving DecidableEq

/-- Environment behaviour of the timeout-handling path: whether the graceful
group signal call raises, whether the child is still alive after the one
second grace period, and whether the forceful kill call raises. -/
structure TimeoutKillBehavior where
  termError : Option String
  aliveAfterGrace : Bool
  killError : Option String

/-- Behaviour of one child-process invocation seen by `run_scenario`: the
child completes within the timeout with some exit code and output, or
`communicate` raises `TimeoutExpired`, or spawning/waiting raises some other
exception (binary missing, permission denied, ...). -/
inductive RunBehavior where
  | completes (exit_code : Int) (stdout stderr : String) (elapsed : Nat)
  | timesOut (kb : TimeoutKillBehavior)
  | raisesOther (msg : String) (elapsed : Nat)

/-- Shallow embedding of `SIPpRunner.run_scenario` for a given timeout and
child behaviour.  Returns the process-group actions performed and either the
result dictionary or, if an exception escapes the method, that exception.
The `except subprocess.TimeoutExpired` handler sends SIGTERM to the process
group, sleeps one second, sends SIGKILL if the child is still alive, and
returns the timeout dictionary; an exception raised inside this handler is
not caught by the sibling `except Exception` clause and therefore escapes.
The `except Exception` handler turns any other failure into a returned
dictionary. -/
def run_scenario (timeoutArg : Nat) (b : RunBehavior) : List RunnerAction × Except String Outcome :=
  match b with
  | RunBehavior.completes ec out err el =>
    ([], Except.ok
      { success := ec == 0, stdout := out, stderr := err,
        exit_code := ec, duration := el, timeout := false })
  | RunBehavior.timesOut kb =>
    match kb.termError with
    | some e => ([], Except.error e)
    | none =>
      if kb.aliveAfterGrace then
        match kb.killError with
        | some e => ([RunnerAction.sigtermGroup, RunnerAction.sleepOneSec, RunnerAction.sigkillGroup], Except.error e)
        | none =>
          ([RunnerAction.sigtermGroup, RunnerAction.sleepOneSec, RunnerAction.sigkillGroup], Except.ok
            { success := false, stdout := "", stderr := "Timeout",
              exit_code := -1, duration := timeoutArg, timeout := true })
      else
        ([RunnerAction.sigtermGroup, RunnerAction.sleepOneSec], Except.ok
          { success := false, stdout := "", stderr := "Timeout",
            exit_code := -1, duration := timeoutArg, timeout := true })
  | RunBehavior.raisesOther msg el =>
    ([], Except.ok
      { success := false, stdout := "", stderr := msg,
        exit_code := -1, duration := el, timeout := false })

/- ============================================================
   Campaign Orchestrator (FuzzingOrchestrator, src/fuzzer/orchestrator.py)
   ============================================================ -/

/-- A Python runtime value involved in the attribution comparison: a
`datetime` (the crash capture time) or a `str` (the serialized test start
time). -/
inductive PyVal where
  | dt (t : Nat)
  | str (s : String)

/-- Python 3 semantics of `a > b` on these values: two datetimes compare by
time, two strings compare lexicographically, and a mixed comparison raises
`TypeError`. -/
def pyGt : PyVal → PyVal → Except String Bool
  | PyVal.dt a, PyVal.dt b => Except.ok (decide (b < a))
  | PyVal.str a, PyVal.str b => Except.ok (decide (b < a))
  | _, _ =>
    Except.error "TypeError: comparison not supported between instances of datetime.datetime and str"

/-- Serialization `datetime.isoformat()`, used when the orchestrator stores a
test start time into the result dictionary as a string. -/
def isoformat (t : Nat) : String :=
  toString t

/-- The `test_result` dictionary built by `run_fuzzing_campaign` for one test
case; `timestamp` holds `test_start.isoformat()` (a string), and stdout and
stderr are truncated to 500 characters for storage. -/
structure TestResult where
  scenario : String
  timestamp : String
  duration : Nat
  success : Bool
  exit_code : Int
  timeout : Bool
  stdout : String
  stderr : String
  deriving DecidableEq

/-- The `crash_case` record persisted by `FuzzingOrchestrator._save_crash_case`. -/
structure CrashCase where
  scenario_file : String
  result : TestResult
  crashes : List CrashEvent
  deriving DecidableEq

/-- The attribution filter of `_save_crash_case`:
`[c for c in self.crashes if c['timestamp'] > result['timestamp']]`.
Each element compares a `datetime` crash timestamp against the string-typed
result timestamp with `>`; the comparison is evaluated left to right and a
`TypeError` aborts the whole comprehension. -/
def attributeCrashes : List CrashEvent → String → Except String (List CrashEvent)
  | [], _ => Except.ok []
  | c :: rest, resultTs =>
    match pyGt (PyVal.dt c.timestamp) (PyVal.str resultTs) with
    | Except.error e => Except.error e
    | Except.ok keep =>
      match attributeCrashes rest resultTs with
      | Except.error e => Except.error e
      | Except.ok tail => Except.ok (if keep then c :: tail else tail)

/-- Shallow embedding of `FuzzingOrchestrator._save_crash_case`: build the
crash-case record whose `crashes` field is the attribution filter over the
global accumulator; a `TypeError` from the filter escapes the method. -/
def save_crash_case (scenario : String) (result : TestResult) (accum : List CrashEvent) :
    Except String CrashCase :=
  match attributeCrashes accum result.timestamp with
  | Except.error e => Except.error e
  | Except.ok cs => Except.ok { scenario_file := scenario, result := result, crashes := cs }

/-- Input of one campaign iteration: the scenario path, the test start time,
the result dictionary returned by the runner, and the crash events appended
to the global accumulator by the monitor during this test. -/
structure CaseInput where
  scenario : String
  startTs : Nat
  outcome : Outcome
  newCrashes : List CrashEvent

/-- Orchestrator state threaded through the campaign loop: `self.results`,
the global accumulator `self.crashes`, and the crash cases persisted so far. -/
structure CampState where
  results : List TestResult
  crashes : List CrashEvent
  saved : List CrashCase
  deriving DecidableEq

/-- The empty orchestrator state set up by `FuzzingOrchestrator.__init__`. -/
def initState : CampState :=
  { results := [], crashes := [], saved := [] }

/-- One iteration of the loop of `FuzzingOrchestrator.run_fuzzing_campaign`
(lines 147-181): record the test result, then, when
`exit_code != 0 or timeout`, call `_save_crash_case`; an exception escaping
that call aborts the campaign. -/
def runCase (st : CampState) (c : CaseInput) : Except String CampState :=
  let crashes2 := st.crashes ++ c.newCrashes
  let tr : TestResult :=
    { scenario := c.scenario
      timestamp := isoformat c.startTs
      duration := c.outcome.duration
      success := c.outcome.success
      exit_code := c.outcome.exit_code
      timeout := c.outcome.timeout
      stdout := c.outcome.stdout.take 500
      stderr := c.outcome.stderr.take 500 }
  let results2 := st.results ++ [tr]
  if c.outcome.exit_code != 0 || c.outcome.timeout then
    match save_crash_case c.scenario tr crashes2 with
    | Except.error e => Except.error e
    | Except.ok cc =>
      Except.ok { results := results2, crashes := crashes2, saved := st.saved ++ [cc] }
  else
    Except.ok { results := results2, crashes := crashes2, saved := st.saved }

/-- The campaign loop of `FuzzingOrchestrator.run_fuzzing_campaign` over a
finite sequence of test cases; an uncaught exception in an iteration aborts
the remaining cases. -/
def run_fuzzing_campaign (st : CampState) : List CaseInput → Except String CampState
  | [] => Except.ok st
  | c :: rest =>
    match runCase st c with
    | Except.error e => Except.error e
    | Except.ok st2 => run_fuzzing_campaign st2 rest

/- ============================================================
   Concrete campaign inputs used in the analysis
   ============================================================ -/

/-- A test result whose stringified start timestamp is `isoformat 5`. -/
def c1_result : TestResult :=
  { scenario := "fuzz_0001.xml", timestamp := isoformat 5, duration := 3,
    success := false, exit_code := 1, timeout := false, stdout := "", stderr := "" }

/-- A test case that succeeds (exit 0, no timeout) while one crash event is
appended to the global accumulator during its execution window. -/
def c2_case : CaseInput :=
  { scenario := "fuzz_0002.xml", startTs := 10
    outcome := { success := true, stdout := "", stderr := "", exit_code := 0,
                 duration := 3, timeout := false }
    newCrashes := [{ timestamp := 11, pattern_name := "ANR", severity := "high",
                     log_line := "ANR in com.android.phone" }] }

/-- A test case with a non-zero exit code and no concurrent crash events. -/
def c2w_case : CaseInput :=
  { scenario := "fuzz_0003.xml", startTs := 20
    outcome := { success := false, stdout := "", stderr := "", exit_code := 1,
                 duration := 2, timeout := false }
    newCrashes := [] }

/-- A failing test case (exit 1) during which one crash event lands in the
global accumulator. -/
def c9_case1 : CaseInput :=
  { scenario := "fuzz_0004.xml", startTs := 30
    outcome := { success := false, stdout := "", stderr := "error", exit_code := 1,
                 duration := 4, timeout := false }
    newCrashes := [{ timestamp := 31, pattern_name := "Native Crash", severity := "critical",
                     log_line := "Fatal signal 11 (SIGSEGV)" }] }

/-- A benign follow-up test case. -/
def c9_case2 : CaseInput :=
  { scenario := "fuzz_0005.xml", startTs := 40
    outcome := { success := true, stdout := "", stderr := "", exit_code := 0,
                 duration := 3, timeout := false }
    newCrashes := [] }

/- ============================================================
   Helper lemmas
   ============================================================ -/

/-- The predicate holding on the whole text makes the scan succeed. -/
theorem anySuffix_here (p : List Char → Bool) (s : List Char) (h : p s = true) :
    anySuffix p s = true := by
  cases s with
  | nil => simp only [anySuffix]
           exact h
  | cons c cs => simp [anySuffix, h]

/-- Dropping the length of the left part of an append yields the right part. -/
theorem drop_length_append (a t : List Char) : (a ++ t).drop a.length = t := by
  induction a with
  | nil => rfl
  | cons c cs ih =>
    simp only [List.cons_append, List.length_cons, List.drop_succ_cons]
    exact ih

/-- The pattern list matches at the head of any extension of itself. -/
theorem startsWith_self_append (a t : List Char) : startsWith (a ++ t) a = true := by
  induction a with
  | nil => simp [startsWith]
  | cons c cs ih => simp [startsWith, ih]

/-- Scanning succeeds on any left extension of a text where it succeeds. -/
theorem anySuffix_append (p : List Char → Bool) (u v : List Char)
    (h : anySuffix p v = true) : anySuffix p (u ++ v) = true := by
  induction u with
  | nil => simpa using h
  | cons c cs ih => simp [anySuffix, ih]

/-- Newline-barred scanning succeeds on any newline-free left extension of a
text where it succeeds. -/
theorem scanNoNl_append (p : List Char → Bool) (u v : List Char)
    (hu : u.all (fun c => c != '\n') = true) (h : scanNoNl p v = true) :
    scanNoNl p (u ++ v) = true := by
  induction u with
  | nil => simpa using h
  | cons c cs ih =>
    simp only [List.all_cons, Bool.and_eq_true] at hu
    simp [scanNoNl, hu.1, ih hu.2]

/-- Character-wise mapping preserves a prefix match. -/
theorem startsWith_map (f : Char → Char) (s p : List Char)
    (h : startsWith s p = true) : startsWith (s.map f) (p.map f) = true := by
  induction p generalizing s with
  | nil => simp [startsWith]
  | cons q qs ih =>
    cases s with
    | nil => exact absurd h (by simp [startsWith])
    | cons c cs =>
      simp only [startsWith, Bool.and_eq_true, beq_iff_eq] at h
      simp only [List.map_cons, startsWith, Bool.and_eq_true, beq_iff_eq]
      exact ⟨by rw [h.1], ih cs h.2⟩

/-- Character-wise mapping preserves a substring occurrence. -/
theorem hasSub_map (f : Char → Char) (s pat : List Char)
    (h : hasSub s pat = true) : hasSub (s.map f) (pat.map f) = true := by
  induction s with
  | nil =>
    simp only [hasSub, anySuffix] at h ⊢
    exact startsWith_map f [] pat h
  | cons c cs ih =>
    simp only [hasSub, anySuffix, Bool.or_eq_true, List.map_cons] at h ⊢
    cases h with
    | inl h1 =>
      have := startsWith_map f (c :: cs) pat h1
      simp only [List.map_cons] at this
      exact Or.inl this
    | inr h2 => exact Or.inr (ih h2)

/- ============================================================
   Process Runner claims
   ============================================================ -/

/-- C3: on every return path of `run_scenario` that produces a result
dictionary, the `success` field equals `exit_code == 0 AND NOT timeout`. -/
theorem c3_succeeded_iff (t : Nat) (b : RunBehavior) (o : Outcome)
    (h : (run_scenario t b).2 = Except.ok o) :
    o.success = (o.exit_code == 0 && !o.timeout) := by
  cases b with
  | completes ec out err el =>
    simp only [run_scenario, Except.ok.injEq] at h
    subst h
    simp
  | timesOut kb =>
    rcases kb with ⟨te, alive, ke⟩
    cases te with
    | some e => simp [run_scenario] at h
    | none =>
      cases alive with
      | false =>
        simp only [run_scenario, Bool.false_eq_true, if_false, Except.ok.injEq] at h
        subst h
        rfl
      | true =>
        cases ke with
        | some e => simp [run_scenario] at h
        | none =>
          simp only [run_scenario, if_true, Except.ok.injEq] at h
          subst h
          rfl
  | raisesOther msg el =>
    simp only [run_scenario, Except.ok.injEq] at h
    subst h
    rfl

/-- Witness for C3 at a concrete completed invocation. -/
theorem c3_succeeded_iff_witness :
    (run_scenario 30 (RunBehavior.completes 0 "ok" "" 5)).2 =
      Except.ok { success := true, stdout := "ok", stderr := "", exit_code := 0,
                  duration := 5, timeout := false }
    ∧ ({ success := true, stdout := "ok", stderr := "", exit_code := 0,
         duration := 5, timeout := false } : Outcome).success =
        (({ success := true, stdout := "ok", stderr := "", exit_code := 0,
            duration := 5, timeout := false } : Outcome).exit_code == 0 &&
         !({ success := true, stdout := "ok", stderr := "", exit_code := 0,
             duration := 5, timeout := false } : Outcome).timeout) := by
  have h : (run_scenario 30 (RunBehavior.completes 0 "ok" "" 5)).2 =
      Except.ok { success := true, stdout := "ok", stderr := "", exit_code := 0,
                  duration := 5, timeout := false } := by rfl
  exact ⟨h, c3_succeeded_iff 30 (RunBehavior.completes 0 "ok" "" 5) _ h⟩

/-- C4: when the configured timeout elapses and the group signal calls do not
themselves fail, the runner sends SIGTERM to the process group, sleeps one
second, sends SIGKILL to the group exactly when the child is still alive, and
returns `timeout = true`, `exit_code = -1`, `success = false`. -/
theorem c4_timeout_path (t : Nat) (alive : Bool) (ke : Option String)
    (h : alive = true → ke = none) :
    run_scenario t (RunBehavior.timesOut
      { termError := none, aliveAfterGrace := alive, killError := ke }) =
      ((if alive then
          [RunnerAction.sigtermGroup, RunnerAction.sleepOneSec, RunnerAction.sigkillGroup]
        else [RunnerAction.sigtermGroup, RunnerAction.sleepOneSec]),
       Except.ok { success := false, stdout := "", stderr := "Timeout",
                   exit_code := -1, duration := t, timeout := true }) := by
  cases alive with
  | false => simp [run_scenario]
  | true =>
    have hk := h rfl
    subst hk
    simp [run_scenario]

/-- Witness for C4 at a concrete timed-out invocation whose child survives the
grace period. -/
theorem c4_timeout_path_witness :
    run_scenario 30 (RunBehavior.timesOut
      { termError := none, aliveAfterGrace := true, killError := none }) =
      ([RunnerAction.sigtermGroup, RunnerAction.sleepOneSec, RunnerAction.sigkillGroup],
       Except.ok { success := false, stdout := "", stderr := "Timeout",
                   exit_code := -1, duration := 30, timeout := true }) := by
  have h := c4_timeout_path 30 true none (fun _ => rfl)
  simpa using h

/-- C5 counterexample: a failure raised inside the timeout-handling path (the
graceful process-group signal call fails) escapes `run_scenario` as an
exception instead of being returned as a result dictionary, because the
`except Exception` clause does not cover exceptions raised by the sibling
`except TimeoutExpired` handler. -/
theorem c5_counterexample :
    (run_scenario 30 (RunBehavior.timesOut
      { termError := some "ProcessLookupError: no such process",
        aliveAfterGrace := false, killError := none })).2 =
      Except.error "ProcessLookupError: no such process" := rfl

/-- C5 amended: every spawn or wait failure outside the timeout-handling path
is returned as a result dictionary with `success = false`, `exit_code = -1`,
the error text in `stderr` and `timeout = false`; an exception can escape
`run_scenario` only from the timeout-handling path. -/
theorem c5_spawn_wait_as_data (t : Nat) (msg : String) (el : Nat)
    (b : RunBehavior) (e : String) (he : (run_scenario t b).2 = Except.error e) :
    (run_scenario t (RunBehavior.raisesOther msg el)).2 =
      Except.ok { success := false, stdout := "", stderr := msg,
                  exit_code := -1, duration := el, timeout := false }
    ∧ ∃ kb, b = RunBehavior.timesOut kb := by
  refine ⟨rfl, ?_⟩
  cases b with
  | completes ec out err el2 => simp [run_scenario] at he
  | timesOut kb => exact ⟨kb, rfl⟩
  | raisesOther msg2 el2 => simp [run_scenario] at he

/-- Witness for C5 amended at a concrete spawn failure and a concrete escaping
timeout-path failure. -/
theorem c5_spawn_wait_as_data_witness :
    (run_scenario 30 (RunBehavior.timesOut
      { termError := some "boom", aliveAfterGrace := false, killError := none })).2 =
      Except.error "boom"
    ∧ ((run_scenario 30 (RunBehavior.raisesOther "FileNotFoundError: docker" 0)).2 =
        Except.ok { success := false, stdout := "", stderr := "FileNotFoundError: docker",
                    exit_code := -1, duration := 0, timeout := false }
      ∧ ∃ kb, RunBehavior.timesOut
          { termError := some "boom", aliveAfterGrace := false, killError := none } =
            RunBehavior.timesOut kb) := by
  have h : (run_scenario 30 (RunBehavior.timesOut
      { termError := some "boom", aliveAfterGrace := false, killError := none })).2 =
      Except.error "boom" := rfl
  exact ⟨h, c5_spawn_wait_as_data 30 "FileNotFoundError: docker" 0 _ "boom" h⟩

/-- C10: every timed-out invocation that returns a result dictionary reports
`duration` equal to the timeout argument itself and an empty `stdout`. -/
theorem c10_timeout_duration_stdout (t : Nat) (kb : TimeoutKillBehavior) (o : Outcome)
    (h : (run_scenario t (RunBehavior.timesOut kb)).2 = Except.ok o) :
    o.duration = t ∧ o.stdout = "" := by
  rcases kb with ⟨te, alive, ke⟩
  cases te with
  | some e => simp [run_scenario] at h
  | none =>
    cases alive with
    | false =>
      simp only [run_scenario, Bool.false_eq_true, if_false, Except.ok.injEq] at h
      subst h
      exact ⟨rfl, rfl⟩
    | true =>
      cases ke with
      | some e => simp [run_scenario] at h
      | none =>
        simp only [run_scenario, if_true, Except.ok.injEq] at h
        subst h
        exact ⟨rfl, rfl⟩

/-- Witness for C10 at a concrete timed-out invocation. -/
theorem c10_timeout_duration_stdout_witness :
    (run_scenario 17 (RunBehavior.timesOut
      { termError := none, aliveAfterGrace := false, killError := none })).2 =
      Except.ok { success := false, stdout := "", stderr := "Timeout",
                  exit_code := -1, duration := 17, timeout := true }
    ∧ ({ success := false, stdout := "", stderr := "Timeout",
         exit_code := -1, duration := 17, timeout := true } : Outcome).duration = 17
    ∧ ({ success := false, stdout := "", stderr := "Timeout",
         exit_code := -1, duration := 17, timeout := true } : Outcome).stdout = "" := by
  have h : (run_scenario 17 (RunBehavior.timesOut
      { termError := none, aliveAfterGrace := false, killError := none })).2 =
      Except.ok { success := false, stdout := "", stderr := "Timeout",
                  exit_code := -1, duration := 17, timeout := true } := rfl
  exact ⟨h, c10_timeout_duration_stdout 17 _ _ h⟩

/-- When no callback raises, the fan-out invokes every registered observer
exactly once, in registration order, with the given event. -/
theorem invokeAll_benign (cbs : List Observer)
    (h : ∀ cb ∈ cbs, ∀ ev, cb ev = Except.ok ()) (idx : Nat) (ev : CrashEvent) :
    invokeAll cbs idx ev = ((List.range cbs.length).map (fun i => (idx + i, ev)), none) := by
  induction cbs generalizing idx with
  | nil => rfl
  | cons cb rest ih =>
    have hcb := h cb (List.mem_cons_self _ _) ev
    have hrest : ∀ cb2 ∈ rest, ∀ ev2, cb2 ev2 = Except.ok () :=
      fun cb2 hm ev2 => h cb2 (List.mem_cons_of_mem _ hm) ev2
    simp only [invokeAll, hcb, ih hrest (idx + 1)]
    have htail : (List.range (rest.length + 1)).map (fun i => (idx + i, ev)) =
        (idx, ev) :: (List.range rest.length).map (fun i => (idx + 1 + i, ev)) := by
      rw [List.range_succ_eq_map, List.map_cons, List.map_map]
      refine congrArg₂ List.cons (by simp) (List.map_congr_left ?_)
      intro a _
      simp only [Function.comp_apply, Prod.mk.injEq]
      exact ⟨by omega, trivial⟩
    simp [htail]

/-- When no callback raises, processing one line is equivalent to its
declarative description: the signatures matching the line, kept in table
order, each producing one event delivered to every observer. -/
theorem matchEntry_benign (cbs : List Observer)
    (h : ∀ cb ∈ cbs, ∀ ev, cb ev = Except.ok ()) (sigs : List CrashSig) (ts : Nat)
    (line : String) :
    matchEntry cbs sigs ts line =
      ((sigs.filter (fun p => p.pattern line)).flatMap
        (fun p => (List.range cbs.length).map (fun i => (i, mkEvent ts p line))), none) := by
  induction sigs with
  | nil => rfl
  | cons p rest ih =>
    cases hp : p.pattern line with
    | false => simp [matchEntry, hp, ih, List.filter_cons]
    | true =>
      simp [matchEntry, hp, invokeAll_benign cbs h 0, ih, List.filter_cons, List.flatMap_cons]

/- ============================================================
   Pattern Matcher claims
   ============================================================ -/

/-- C6: with observers that return normally, each queued line is evaluated
against every signature in table order and exactly one crash event per
matching signature is delivered to every observer (all matching signatures
fire, not just the first); in particular a line containing `SIGSEGV` fires
both the Native Crash signature and the Segfault signature. -/
theorem c6_all_signatures_fire (cbs : List Observer) (ts : Nat) (line : String)
    (h : ∀ cb ∈ cbs, ∀ ev, cb ev = Except.ok ()) :
    matchEntry cbs crash_patterns ts line =
      ((crash_patterns.filter (fun p => p.pattern line)).flatMap
        (fun p => (List.range cbs.length).map (fun i => (i, mkEvent ts p line))), none)
    ∧ (hasSub line.data "SIGSEGV".data = true →
        mkEvent ts native_crash_sig line ∈
          (crash_patterns.filter (fun p => p.pattern line)).map (fun p => mkEvent ts p line)
        ∧ mkEvent ts segfault_sig line ∈
          (crash_patterns.filter (fun p => p.pattern line)).map (fun p => mkEvent ts p line)) := by
  refine ⟨matchEntry_benign cbs h crash_patterns ts line, fun hseg => ?_⟩
  have h1 : native_crash_sig.pattern line = true := by
    simp [native_crash_sig, hseg]
  have h2 : segfault_sig.pattern line = true := by
    have hm := hasSub_map Char.toLower line.data "SIGSEGV".data hseg
    have heq : ("SIGSEGV".data.map Char.toLower) = "sigsegv".data := by decide
    rw [heq] at hm
    simp [segfault_sig, lowerStr, hm]
  constructor
  · exact List.mem_map_of_mem _ (List.mem_filter.mpr ⟨by simp [crash_patterns], h1⟩)
  · exact List.mem_map_of_mem _ (List.mem_filter.mpr ⟨by simp [crash_patterns], h2⟩)

/-- Witness for C6: one benign observer, one line containing `SIGSEGV`. -/
theorem c6_all_signatures_fire_witness :
    matchEntry ([fun _ => Except.ok ()] : List Observer) crash_patterns 3 "SIGSEGV" =
      ((crash_patterns.filter (fun p => p.pattern "SIGSEGV")).flatMap
        (fun p => (List.range ([fun _ => Except.ok ()] : List Observer).length).map
          (fun i => (i, mkEvent 3 p "SIGSEGV"))), none)
    ∧ mkEvent 3 native_crash_sig "SIGSEGV" ∈
        (crash_patterns.filter (fun p => p.pattern "SIGSEGV")).map
          (fun p => mkEvent 3 p "SIGSEGV")
    ∧ mkEvent 3 segfault_sig "SIGSEGV" ∈
        (crash_patterns.filter (fun p => p.pattern "SIGSEGV")).map
          (fun p => mkEvent 3 p "SIGSEGV") := by
  have hb : ∀ cb ∈ ([fun _ => Except.ok ()] : List Observer), ∀ ev, cb ev = Except.ok () := by
    intro cb hm ev
    simp only [List.mem_singleton] at hm
    subst hm
    rfl
  have h := c6_all_signatures_fire ([fun _ => Except.ok ()] : List Observer) 3 "SIGSEGV" hb
  have hs : hasSub "SIGSEGV".data "SIGSEGV".data = true := by decide
  exact ⟨h.1, (h.2 hs).1, (h.2 hs).2⟩

/-- C7 counterexample: the status code 486 lies in the 4xx range, yet the SIP
Error signature does not match a log line carrying it, because the compiled
pattern only accepts the digit sequences `40[0-9]` and `50[0-9]`. -/
theorem c7_counterexample :
    sip_error_sig.name = "SIP Error"
    ∧ (400 ≤ 486 ∧ 486 ≤ 599)
    ∧ sip_error_sig.pattern "SIP/2.0 486 Busy Here" = false := by
  exact ⟨rfl, by decide, by decide⟩

/-- C7 amended: the SIP Error signature has severity medium and matches
exactly the lines containing `SIP` followed (without an intervening newline)
by `40` or `50` plus one more digit, i.e. response codes 400-409 and 500-509
only. -/
theorem c7_sip_40x_50x (pre mid post : List Char) (d : Char)
    (hd : d.isDigit = true) (hmid : mid.all (fun c => c != '\n') = true) :
    sip_error_sig.pattern
      (String.mk (pre ++ ("SIP".data ++ (mid ++ ('4' :: '0' :: d :: post))))) = true
    ∧ sip_error_sig.pattern
      (String.mk (pre ++ ("SIP".data ++ (mid ++ ('5' :: '0' :: d :: post))))) = true
    ∧ sip_error_sig.severity = "medium" := by
  have hor1 : ∀ a b : Bool, a = true → (a || b) = true := fun a b h => by simp [h]
  have hor2 : ∀ a b : Bool, b = true → (a || b) = true := fun a b h => by simp [h]
  refine ⟨?_, ?_, rfl⟩
  · simp only [sip_error_sig, seqSubP]
    apply hor1
    apply anySuffix_append
    apply anySuffix_here
    rw [startsWith_self_append, drop_length_append]
    simp only [Bool.true_and]
    exact scanNoNl_append _ _ _ hmid (by simp [scanNoNl, is40x, hd])
  · simp only [sip_error_sig, seqSubP]
    apply hor2
    apply anySuffix_append
    apply anySuffix_here
    rw [startsWith_self_append, drop_length_append]
    simp only [Bool.true_and]
    exact scanNoNl_append _ _ _ hmid (by simp [scanNoNl, is50x, hd])

/-- Witness for C7 amended at the concrete line `SIP 404 Not Found`. -/
theorem c7_sip_40x_50x_witness :
    sip_error_sig.pattern
      (String.mk (" ".data ++ ("SIP".data ++ (" ".data ++ ('4' :: '0' :: '4' :: " Not Found".data))))) = true
    ∧ sip_error_sig.pattern
      (String.mk (" ".data ++ ("SIP".data ++ (" ".data ++ ('5' :: '0' :: '4' :: " Not Found".data))))) = true
    ∧ sip_error_sig.severity = "medium" :=
  c7_sip_40x_50x " ".data " ".data " Not Found".data '4' (by decide) (by decide)

/-- C8 counterexample: with a first observer that raises and a second benign
observer, a line matching both the Native Crash and the Segfault signatures
results in exactly one invocation (first observer, first event) and an
exception: the second observer is never invoked for that event and the
Segfault signature, although it matches the line, never fires. -/
theorem c8_counterexample :
    matchEntry ([fun _ => Except.error "boom", fun _ => Except.ok ()] : List Observer)
        crash_patterns 7 "SIGSEGV here" =
      ([(0, { timestamp := 7, pattern_name := "Native Crash", severity := "critical",
              log_line := "SIGSEGV here" })], some "boom")
    ∧ segfault_sig.pattern "SIGSEGV here" = true := by
  exact ⟨rfl, by decide⟩

/-- C8 amended: an observer exception aborts the remaining observers for that
event and the remaining signatures for that line, but it is caught at the
consumer-loop level, so the matcher always continues with the next queued
line. -/
theorem c8_line_level_isolation (msg : String) (rest : List Observer) (ts : Nat)
    (line : String) (pats : List CrashSig) (p : CrashSig)
    (cbs : List Observer) (en : LogEntry) (ens : List LogEntry)
    (hp : p.pattern line = true) :
    matchEntry ((fun _ => Except.error msg) :: rest) (p :: pats) ts line =
      ([(0, mkEvent ts p line)], some msg)
    ∧ match_patterns cbs (en :: ens) =
        (matchEntry cbs crash_patterns en.timestamp en.line).1 ++ match_patterns cbs ens := by
  constructor
  · simp [matchEntry, hp, invokeAll]
  · rfl

/-- Witness for C8 amended at concrete observers, line and stream. -/
theorem c8_line_level_isolation_witness :
    matchEntry ((fun _ => Except.error "boom") :: ([] : List Observer))
        [native_crash_sig] 1 "Fatal signal 11" =
      ([(0, mkEvent 1 native_crash_sig "Fatal signal 11")], some "boom")
    ∧ match_patterns [] [{ timestamp := 2, line := "x" }] =
        (matchEntry [] crash_patterns 2 "x").1 ++ match_patterns [] [] :=
  c8_line_level_isolation "boom" [] 1 "Fatal signal 11" [] native_crash_sig []
    { timestamp := 2, line := "x" } [] (by decide)

/- ============================================================
   Campaign Orchestrator claims
   ============================================================ -/

/-- C1: evaluating the attribution filter of `_save_crash_case` at a crash
event whose detection time equals the test's `started_at` (which the claim
requires to be attributed) does not attribute anything: the comparison of the
datetime crash timestamp with the string-typed result timestamp raises a
`TypeError`, so the crash-case record is never produced when the accumulator
is non-empty; moreover the filter compares only against `started_at`
(strictly), never against `ended_at`. -/
theorem c1_attribution_type_error :
    save_crash_case "fuzz_0001.xml" c1_result
      [{ timestamp := 5, pattern_name := "Native Crash", severity := "critical",
         log_line := "Fatal signal 11" }] =
      Except.error "TypeError: comparison not supported between instances of datetime.datetime and str"
    ∧ c1_result.timestamp = isoformat 5 := by
  exact ⟨rfl, rfl⟩

/-- C2 counterexample: a campaign over one test case with exit code 0, no
timeout, and a non-empty set of concurrently detected crash events persists
no crash case. -/
theorem c2_counterexample :
    c2_case.outcome.exit_code = 0
    ∧ c2_case.outcome.timeout = false
    ∧ c2_case.newCrashes ≠ []
    ∧ (run_fuzzing_campaign initState [c2_case]).toOption.map CampState.saved = some [] := by
  refine ⟨rfl, rfl, by decide, rfl⟩

/-- C2 amended: a crash-case record is persisted for a test exactly when its
exit code is non-zero or it timed out; the attributed-crash list plays no
role in the decision (stated here for an empty accumulator, where the save
step itself cannot fail). -/
theorem c2_persistence_condition (st : CampState) (c : CaseInput)
    (h1 : st.crashes = []) (h2 : c.newCrashes = []) :
    (runCase st c).toOption.map (fun s => s.saved.length) =
      some (st.saved.length + (if c.outcome.exit_code != 0 || c.outcome.timeout then 1 else 0)) := by
  cases hcond : (c.outcome.exit_code != 0 || c.outcome.timeout) with
  | false => simp [runCase, hcond, Except.toOption]
  | true => simp [runCase, hcond, save_crash_case, attributeCrashes, h1, h2, Except.toOption]

/-- Witness for C2 amended at a failing test case with an empty accumulator. -/
theorem c2_persistence_condition_witness :
    (runCase initState c2w_case).toOption.map (fun s => s.saved.length) =
      some (initState.saved.length +
        (if c2w_case.outcome.exit_code != 0 || c2w_case.outcome.timeout then 1 else 0)) :=
  c2_persistence_condition initState c2w_case rfl rfl

/-- C9: a campaign of two test cases where case 1 exits non-zero while one
crash event sits in the accumulator aborts with a `TypeError` inside
`_save_crash_case` before case 2 is executed, recording fewer than two
results; the same campaign with an empty accumulator runs both cases. -/
theorem c9_campaign_aborts :
    run_fuzzing_campaign initState [c9_case1, c9_case2] =
      Except.error "TypeError: comparison not supported between instances of datetime.datetime and str"
    ∧ (run_fuzzing_campaign initState [{ c9_case1 with newCrashes := [] }, c9_case2]).toOption.map
        (fun s => s.results.length) = some 2 := by
  exact ⟨rfl, rfl⟩
